import Mathlib

/-
Shallow embedding of `src/tools/extended.ts` from playwright-mcp-ta: the three
request-interception tools `mock-api` (browser_mock_api), `clear-mock-api`
(browser_clear_mock_api) and `set-headers` (browser_set_headers).

Modelling conventions:
- zod schemas are modelled as validation functions from a raw-input record
  (optional fields) to `Except String` of the validated parameters, returning
  the name of the offending field on failure.
- the Playwright page is modelled as an explicit state: a routing table (list
  of pattern/rule pairs, newest first) plus the extra-HTTP-headers map.
  Handlers return the list of page operations they perform together with the
  tool result; `applyOp` gives the operations their (Playwright-documented)
  effect on the page state: `unroute pat` removes every registration for
  `pat`, `setExtraHTTPHeaders` replaces the header set wholesale.
- JS peculiarities that the source leans on are modelled explicitly:
  strict equality `x === params.method` between a string and a possibly
  undefined value (`strictEqMethod`), string truthiness of `params.url`
  (`jsTruthyStr`), and template interpolation of a possibly undefined value
  (`jsInterp`, rendering `undefined`).
-/

/-- The HTTP verb enum of the mock-api schema (`z.enum([...])`, extended.ts:18). -/
def methodEnum : List String :=
  ["GET", "POST", "PUT", "DELETE", "PATCH", "HEAD", "OPTIONS"]

/-- Validated parameters of the mock-api tool, after the zod schema of
extended.ts:11-40 has applied defaults (`status` 200, `contentType`
"application/json"). `method` and `headers` stay optional. -/
structure MockApiParams where
  url : String
  method : Option String
  status : Int
  contentType : String
  body : String
  headers : Option (List (String × String))
deriving Repr, DecidableEq

/-- Raw input of the mock-api tool before validation: every schema field may be
absent. -/
structure MockApiInput where
  url : Option String
  method : Option String
  status : Option Int
  contentType : Option String
  body : Option String
  headers : Option (List (String × String))
deriving Repr, DecidableEq

/-- `z.enum([... verbs ...]).optional()` (extended.ts:17-20): absent is accepted,
a present value must be one of the seven verbs. -/
def validateMethod : Option String → Except String (Option String)
  | none => .ok none
  | some m => if methodEnum.contains m then .ok (some m) else .error "method"

/-- `z.number().min(100).max(599).default(200)` (extended.ts:21-26): absent
defaults to 200, a present value must lie in [100, 599]. -/
def validateStatus : Option Int → Except String Int
  | none => .ok 200
  | some s => if 100 ≤ s ∧ s ≤ 599 then .ok s else .error "status"

/-- The whole mock-api input schema (extended.ts:11-40), checking the fields in
declaration order: url, method, status, contentType (defaulted), body, headers. -/
def validateMockApi (i : MockApiInput) : Except String MockApiParams :=
  match i.url with
  | none => .error "url"
  | some u =>
    match validateMethod i.method with
    | .error e => .error e
    | .ok m =>
      match validateStatus i.status with
      | .error e => .error e
      | .ok s =>
        match i.body with
        | none => .error "body"
        | some b =>
          .ok { url := u, method := m, status := s,
                contentType := i.contentType.getD "application/json",
                body := b, headers := i.headers }

/-- A live network request as seen by a route callback; the interceptor only
inspects `route.request().method()`. -/
structure Request where
  method : String
deriving Repr, DecidableEq

/-- What a route callback does with an intercepted request: `route.fulfill`
with the given response fields, or `route.continue()` (`cont`). -/
inductive RouteAction where
  | fulfill (status : Int) (contentType : String) (body : String)
      (headers : Option (List (String × String)))
  | cont
deriving Repr, DecidableEq

/-- JS strict equality `reqMethod === m` where `reqMethod` is the live
request's method string and `m` is the optional `params.method`: a string is
never strictly equal to `undefined`, so the comparison is false whenever the
field is absent. -/
def strictEqMethod (reqMethod : String) (m : Option String) : Bool :=
  match m with
  | some s => reqMethod == s
  | none => false

/-- The route callback installed by mock-api (extended.ts:47-58): fulfill with
the configured status, contentType, body and headers when the live method is
strictly equal to `params.method`, otherwise continue. -/
def interceptorAction (p : MockApiParams) (req : Request) : RouteAction :=
  if strictEqMethod req.method p.method then
    .fulfill p.status p.contentType p.body p.headers
  else
    .cont

/-- An operation the handlers perform on the Playwright page. -/
inductive PageOp where
  | route (pattern : String) (rule : MockApiParams)
  | unroute (pattern : String)
  | setExtraHTTPHeaders (headers : List (String × String))
deriving Repr, DecidableEq

/-- The page state the tools mutate: the routing table (newest registration
first) and the extra-HTTP-headers map. -/
structure PageState where
  routes : List (String × MockApiParams)
  extraHTTPHeaders : List (String × String)
deriving Repr, DecidableEq

/-- Effect of one page operation, per Playwright's documented contract:
`route` adds a registration for the pattern, `unroute` removes every
registration for the pattern (a no-op when none exists), and
`setExtraHTTPHeaders` replaces the extra-header set wholesale (spec §3:
collaborator contract, not enforced by this code). -/
def applyOp (st : PageState) : PageOp → PageState
  | .route pat rule => { st with routes := (pat, rule) :: st.routes }
  | .unroute pat => { st with routes := st.routes.filter (fun r => r.1 != pat) }
  | .setExtraHTTPHeaders hs => { st with extraHTTPHeaders := hs }

/-- Apply a handler's page operations in order. -/
def applyOps (st : PageState) (ops : List PageOp) : PageState :=
  ops.foldl applyOp st

/-- What every handler returns (extended.ts:78-82, 113-117, 146-150): the
ordered transcript lines plus the two flags. -/
structure ToolResult where
  code : List String
  captureSnapshot : Bool
  waitForNetwork : Bool
deriving Repr, DecidableEq

/-- JS template interpolation of a possibly undefined string value:
an absent value renders as the text "undefined". -/
def jsInterp : Option String → String
  | none => "undefined"
  | some s => s

/-- `JSON.stringify` on a string-to-string record, as used in the emitted
transcripts (string escaping inside keys and values is not modelled; no claim
depends on it). -/
def jsonStringifyRecord (hs : List (String × String)) : String :=
  "\x7b" ++
    String.intercalate ","
      (hs.map (fun kv => "\x22" ++ kv.1 ++ "\x22:\x22" ++ kv.2 ++ "\x22")) ++
    "\x7d"

/-- The transcript emitted by mock-api (extended.ts:60-76), line for line.
Note line index 2: `params.method` is interpolated into a quoted string
literal, so an absent method renders as the literal string comparison
`=== \x27undefined\x27`. -/
def mockApiCode (p : MockApiParams) : List String :=
  ["// Mock API response for " ++ p.url,
   "await page.route(\x27" ++ p.url ++ "\x27, (route, request) => \x7b",
   "  if (route.request().method() === \x27" ++ jsInterp p.method ++ "\x27) \x7b",
   "  route.fulfill(\x7b",
   "    status: " ++ toString p.status ++ ",",
   "    contentType: \x27" ++ p.contentType ++ "\x27,",
   "    body: \x27" ++ p.body ++ "\x27,",
   "    headers: \x7b",
   "      ..." ++ jsonStringifyRecord (p.headers.getD []) ++ ",",
   "    \x7d,",
   "  \x7d);",
   "  \x7d else \x7b",
   "    route.continue();",
   "  \x7d",
   "\x7d);"]

/-- The mock-api handler (extended.ts:44-83) on validated parameters: register
one route for `params.url` carrying the interception rule, and return the
transcript with both flags false. -/
def mockApiHandle (p : MockApiParams) : List PageOp × ToolResult :=
  ([PageOp.route p.url p],
   { code := mockApiCode p, captureSnapshot := false, waitForNetwork := false })

/-- Raw input of the clear-mock-api tool: the single `url` field, possibly
absent. -/
structure ClearMockInput where
  url : Option String
deriving Repr, DecidableEq

/-- The clear-mock-api input schema (extended.ts:92-98): `url: z.string()`
carries no `.optional()`, so an absent url is rejected; any string, the empty
string included, is accepted. -/
def validateClearMock (i : ClearMockInput) : Except String String :=
  match i.url with
  | none => .error "url"
  | some u => .ok u

/-- JS truthiness of `params.url` as tested by `if (params.url)`
(extended.ts:104): `undefined` and the empty string are both falsy. -/
def jsTruthyStr : Option String → Bool
  | none => false
  | some s => s != ""

/-- The transcript emitted by clear-mock-api (extended.ts:108-111); the url is
interpolated unconditionally, so an absent url renders as "undefined". -/
def clearMockCode (url : Option String) : List String :=
  ["// Clear Mock API response for " ++ jsInterp url,
   "await page.unroute(\x27" ++ jsInterp url ++ "\x27);"]

/-- The clear-mock-api handler (extended.ts:101-118): `page.unroute` is only
called when `params.url` is truthy; the transcript is emitted either way, and
both flags are false. -/
def clearMockHandle (url : Option String) : List PageOp × ToolResult :=
  ((if jsTruthyStr url then [PageOp.unroute (jsInterp url)] else []),
   { code := clearMockCode url, captureSnapshot := false,
     waitForNetwork := false })

/-- Raw input of the set-headers tool: the single `headers` record, possibly
absent. -/
structure SetHeadersInput where
  headers : Option (List (String × String))
deriving Repr, DecidableEq

/-- The set-headers input schema (extended.ts:128-134): `headers` is a
required string map. -/
def validateSetHeaders (i : SetHeadersInput) :
    Except String (List (String × String)) :=
  match i.headers with
  | none => .error "headers"
  | some hs => .ok hs

/-- The set-headers handler (extended.ts:137-151): one
`page.setExtraHTTPHeaders` call with the supplied map, transcript, both flags
false. -/
def setHeadersHandle (hs : List (String × String)) : List PageOp × ToolResult :=
  ([PageOp.setExtraHTTPHeaders hs],
   { code := ["// Set Extra HTTP Headers",
              "await page.setExtraHTTPHeaders(" ++ jsonStringifyRecord hs ++ ");"],
     captureSnapshot := false, waitForNetwork := false })

/-- Modelled from the spec: the tool-dispatch framework (`defineTool` in
`tool.js`, not under src/) validates the input against the tool's zod schema
and rejects before the handler runs (spec §4.1, §7: schema failures are
surfaced before any side effect). On success the handler's page operations are
applied to the page state. -/
def runMockApi (st : PageState) (i : MockApiInput) :
    PageState × Except String ToolResult :=
  match validateMockApi i with
  | .error e => (st, .error e)
  | .ok p => (applyOps st (mockApiHandle p).1, .ok (mockApiHandle p).2)

/-- Modelled from the spec: dispatch for clear-mock-api, validation before the
handler (spec §4.1, §7), as for `runMockApi`. -/
def runClearMock (st : PageState) (i : ClearMockInput) :
    PageState × Except String ToolResult :=
  match validateClearMock i with
  | .error e => (st, .error e)
  | .ok u => (applyOps st (clearMockHandle (some u)).1,
              .ok (clearMockHandle (some u)).2)

/-- Modelled from the spec: dispatch for set-headers, validation before the
handler (spec §4.1, §7), as for `runMockApi`. -/
def runSetHeaders (st : PageState) (i : SetHeadersInput) :
    PageState × Except String ToolResult :=
  match validateSetHeaders i with
  | .error e => (st, .error e)
  | .ok hs => (applyOps st (setHeadersHandle hs).1, .ok (setHeadersHandle hs).2)

/-- The interceptor DESCRIBED by the emitted transcript (extended.ts:62-75),
read back as code: because `params.method` is interpolated into a quoted
string literal, the generated script compares the live method against the
STRING rendering of the field — against "undefined" when the field is absent —
rather than against the undefined value the executed closure uses. -/
def transcriptAction (p : MockApiParams) (req : Request) : RouteAction :=
  if req.method == jsInterp p.method then
    .fulfill p.status p.contentType p.body p.headers
  else
    .cont

/-- Boolean form of "the input's status is present and outside [100, 599]". -/
def badStatusB (i : MockApiInput) : Bool :=
  match i.status with
  | some s => decide (s < 100) || decide (599 < s)
  | none => false

/-- Boolean form of "the input's method is present and not one of the seven
verbs". -/
def badMethodB (i : MockApiInput) : Bool :=
  match i.method with
  | some m => !(methodEnum.contains m)
  | none => false

/-- `f` names a field of `i` that violates the mock-api schema. -/
def offendingFieldB (i : MockApiInput) (f : String) : Bool :=
  (f == "url" && i.url.isNone) ||
  (f == "method" && badMethodB i) ||
  (f == "status" && badStatusB i) ||
  (f == "body" && i.body.isNone)

/-- Example validated parameters: the spec's "/api/x" mock with no method. -/
def exParamsNoMethod : MockApiParams :=
  ⟨"/api/x", none, 200, "application/json", "\x7b\x22ok\x22:true\x7d", none⟩

/-- Example validated parameters: the spec's "/api/users" GET mock. -/
def exParamsGet : MockApiParams :=
  ⟨"/api/users", some "GET", 200, "application/json",
   "\x7b\x22ok\x22:true\x7d", none⟩

/-- Example validated parameters with the empty-string url pattern, which the
schema (`z.string()`) accepts. -/
def exParamsEmptyUrl : MockApiParams :=
  ⟨"", none, 200, "application/json", "x", none⟩

/-- Example page state with one pre-existing registration. -/
def exState : PageState := ⟨[("/other", exParamsGet)], []⟩

/-- Example invalid mock-api input: status 600, everything else well-formed. -/
def exBadStatusInput : MockApiInput :=
  ⟨some "/a", none, some 600, none, some "x", none⟩

theorem validateMockApi_rejects (i : MockApiInput)
    (h : (badStatusB i || badMethodB i) = true) :
    ∃ f, validateMockApi i = Except.error f ∧ offendingFieldB i f = true := by
  rcases hu : i.url with _ | u
  · exact ⟨"url", by simp [validateMockApi, hu], by simp [offendingFieldB, hu]⟩
  · rcases hm : i.method with _ | m
    · have hbs : badStatusB i = true := by
        simpa [badMethodB, hm] using h
      rcases hs : i.status with _ | s
      · simp [badStatusB, hs] at hbs
      · have hrange : ¬ (100 ≤ s ∧ s ≤ 599) := by
          simp [badStatusB, hs, decide_eq_true_eq] at hbs
          omega
        refine ⟨"status", ?_, ?_⟩
        · simp [validateMockApi, hu, hm, validateMethod, validateStatus, hs,
            hrange]
        · simp [offendingFieldB, hbs]
    · by_cases hc : m ∈ methodEnum
      · have hbm : badMethodB i = false := by simp [badMethodB, hm, hc]
        have hbs : badStatusB i = true := by simpa [hbm] using h
        rcases hs : i.status with _ | s
        · simp [badStatusB, hs] at hbs
        · have hrange : ¬ (100 ≤ s ∧ s ≤ 599) := by
            simp [badStatusB, hs, decide_eq_true_eq] at hbs
            omega
          refine ⟨"status", ?_, ?_⟩
          · simp [validateMockApi, hu, hm, validateMethod, validateStatus, hc,
              hs, hrange]
          · simp [offendingFieldB, hbs]
      · refine ⟨"method", ?_, ?_⟩
        · simp [validateMockApi, hu, hm, validateMethod, hc]
        · simp [offendingFieldB, badMethodB, hm, hc]
/-- C1: when the optional `method` field is absent, the strict-equality
comparison `route.request().method() === params.method` fails for every live
request, so the interceptor lets every request to the mocked pattern continue
unmodified and never fulfills one; the handler installs exactly the one route
for `params.url` carrying that rule. -/
theorem mockApi_absent_method_all_requests_pass
    (p : MockApiParams) (req : Request) (h : p.method = none) :
    (mockApiHandle p).1 = [PageOp.route p.url p] ∧
    interceptorAction p req = RouteAction.cont :=
  ⟨rfl, by simp [interceptorAction, strictEqMethod, h]⟩

/-- Witness for C1: the spec's "/api/x" scenario with a GET request. -/
theorem mockApi_absent_method_all_requests_pass_witness :
    (mockApiHandle exParamsNoMethod).1 =
      [PageOp.route exParamsNoMethod.url exParamsNoMethod] ∧
    interceptorAction exParamsNoMethod ⟨"GET"⟩ = RouteAction.cont :=
  mockApi_absent_method_all_requests_pass exParamsNoMethod ⟨"GET"⟩ rfl

/-- C2: with a specified method, the interceptor fulfills a request whose
method equals the rule's method with exactly the configured status,
contentType, body and headers, and lets every other request continue
unmodified. -/
theorem mockApi_specified_method_match
    (p : MockApiParams) (m : String) (req : Request) (h : p.method = some m) :
    interceptorAction p req =
      if req.method = m then
        RouteAction.fulfill p.status p.contentType p.body p.headers
      else RouteAction.cont := by
  by_cases hc : req.method = m <;>
    simp [interceptorAction, strictEqMethod, h, hc]

/-- Witness for C2: the spec's "/api/users" GET scenario — a GET is fulfilled
with status 200 and the configured body, a POST continues. -/
theorem mockApi_specified_method_match_witness :
    interceptorAction exParamsGet ⟨"GET"⟩ =
      RouteAction.fulfill 200 "application/json" "\x7b\x22ok\x22:true\x7d"
        none ∧
    interceptorAction exParamsGet ⟨"POST"⟩ = RouteAction.cont := by
  have h1 := mockApi_specified_method_match exParamsGet "GET" ⟨"GET"⟩ rfl
  have h2 := mockApi_specified_method_match exParamsGet "GET" ⟨"POST"⟩ rfl
  exact ⟨by simpa [exParamsGet] using h1, by simpa [exParamsGet] using h2⟩

/-- C3: a mock-api input whose status lies outside [100, 599] or whose method
lies outside the verb enum is rejected by validation with an error naming an
offending field, and the page state is returned unchanged (no page mutation
occurs). -/
theorem mockApi_invalid_rejected_before_mutation
    (st : PageState) (i : MockApiInput)
    (h : (badStatusB i || badMethodB i) = true) :
    ∃ f, runMockApi st i = (st, Except.error f) ∧
      offendingFieldB i f = true := by
  obtain ⟨f, hv, ho⟩ := validateMockApi_rejects i h
  exact ⟨f, by simp [runMockApi, hv], ho⟩

/-- Witness for C3: status 600 on an otherwise well-formed input is rejected
and the example page state is untouched. -/
theorem mockApi_invalid_rejected_before_mutation_witness :
    (badStatusB exBadStatusInput || badMethodB exBadStatusInput) = true ∧
    (∃ f, runMockApi exState exBadStatusInput = (exState, Except.error f) ∧
      offendingFieldB exBadStatusInput f = true) :=
  ⟨rfl, mockApi_invalid_rejected_before_mutation exState exBadStatusInput rfl⟩

/-- C4: at the failing input (url omitted) the clear-mock-api schema rejects
the call — `url: z.string()` carries no `.optional()` — naming the url field,
so the page state is unchanged; the handler itself, run on the absent url,
issues no unroute operation and emits the transcript referencing the absent
pattern as "undefined", exactly as the claim describes the accepted-call
behaviour. -/
theorem clearMock_omitted_url (st : PageState) :
    runClearMock st ⟨none⟩ = (st, Except.error "url") ∧
    (clearMockHandle none).1 = [] ∧
    (clearMockHandle none).2.code =
      ["// Clear Mock API response for undefined",
       "await page.unroute(\x27undefined\x27);"] :=
  ⟨rfl, rfl, rfl⟩

/-- C5: clearing a pattern for which no mock is registered raises no error and
leaves the page state unchanged: validation succeeds and the tool returns ok
with the state it was given. -/
theorem clearMock_absent_pattern_noop
    (st : PageState) (u : String)
    (h : st.routes.all (fun r => r.1 != u) = true) :
    runClearMock st ⟨some u⟩ =
      (st, Except.ok (clearMockHandle (some u)).2) := by
  by_cases hu : u = ""
  · subst hu
    simp [runClearMock, validateClearMock, clearMockHandle, jsTruthyStr,
      applyOps]
  · have hf : st.routes.filter (fun r => r.1 != u) = st.routes := by
      rw [List.filter_eq_self]
      intro a ha
      exact (List.all_eq_true.mp h) a ha
    simp [runClearMock, validateClearMock, clearMockHandle, jsTruthyStr, hu,
      applyOps, applyOp, jsInterp, hf]

/-- Witness for C5: clearing "/api/z" on a state that only registers "/other"
returns ok and leaves the state unchanged. -/
theorem clearMock_absent_pattern_noop_witness :
    (exState.routes.all (fun r => r.1 != "/api/z")) = true ∧
    runClearMock exState ⟨some "/api/z"⟩ =
      (exState, Except.ok (clearMockHandle (some "/api/z")).2) :=
  ⟨rfl, clearMock_absent_pattern_noop exState "/api/z" rfl⟩

/-- C6 counterexample: for the empty-string pattern — accepted by the mock-api
schema — registering a mock and then clearing that pattern does NOT remove the
registration: the clear handler's truthiness guard `if (params.url)` treats ""
as falsy and skips the unroute call, so the route for "" persists. -/
theorem registerClear_empty_pattern_persists :
    (applyOps (applyOps exState (mockApiHandle exParamsEmptyUrl).1)
        (clearMockHandle (some "")).1).routes.any
      (fun r => r.1 == "") = true := rfl

/-- C6 (amended): for every urlPattern other than the empty string, and every
rule, registering a mock for the pattern and then immediately clearing it
leaves no registration for that pattern in the routing table. -/
theorem registerClear_nonempty_pattern_removed
    (st : PageState) (p : MockApiParams) (h : p.url ≠ "") :
    ((applyOps (applyOps st (mockApiHandle p).1)
        (clearMockHandle (some p.url)).1).routes.all
      (fun r => r.1 != p.url)) = true := by
  have htr : jsTruthyStr (some p.url) = true := by
    simp [jsTruthyStr, h]
  simp [applyOps, mockApiHandle, clearMockHandle, htr, jsInterp, applyOp]

/-- Witness for C6 (amended): register "/api/users" then clear it; no route
for "/api/users" remains. -/
theorem registerClear_nonempty_pattern_removed_witness :
    ((applyOps (applyOps exState (mockApiHandle exParamsGet).1)
        (clearMockHandle (some exParamsGet.url)).1).routes.all
      (fun r => r.1 != exParamsGet.url)) = true :=
  registerClear_nonempty_pattern_removed exState exParamsGet (by decide)

/-- C7: set-headers replaces the page's extra-header set wholesale with
exactly the supplied map, whatever headers were previously set (no merge); in
particular the empty map leaves no extra headers. -/
theorem setHeaders_wholesale_replacement
    (st : PageState) (hs : List (String × String)) :
    (applyOps st (setHeadersHandle hs).1).extraHTTPHeaders = hs ∧
    (applyOps st (setHeadersHandle []).1).extraHTTPHeaders = [] :=
  ⟨rfl, rfl⟩

/-- C8: each of the three handlers returns the ordered transcript lines
(`code`) together with the two flags, and both captureSnapshot and
waitForNetwork are always false. -/
theorem tools_return_code_and_false_flags
    (p : MockApiParams) (u : Option String) (hs : List (String × String)) :
    (mockApiHandle p).2.code = mockApiCode p ∧
    (mockApiHandle p).2.captureSnapshot = false ∧
    (mockApiHandle p).2.waitForNetwork = false ∧
    (clearMockHandle u).2.code = clearMockCode u ∧
    (clearMockHandle u).2.captureSnapshot = false ∧
    (clearMockHandle u).2.waitForNetwork = false ∧
    (setHeadersHandle hs).2.captureSnapshot = false ∧
    (setHeadersHandle hs).2.waitForNetwork = false :=
  ⟨rfl, rfl, rfl, rfl, rfl, rfl, rfl, rfl⟩

/-- C9: the empty string passes the clear-mock-api schema (any string is
accepted), yet the handler's truthiness guard issues no unroute operation and
the page state is unchanged by the whole call. -/
theorem clearMock_empty_string_valid_no_unroute (st : PageState) :
    validateClearMock ⟨some ""⟩ = Except.ok "" ∧
    (clearMockHandle (some "")).1 = [] ∧
    runClearMock st ⟨some ""⟩ =
      (st, Except.ok (clearMockHandle (some "")).2) :=
  ⟨rfl, rfl, rfl⟩

/-- C10: with `method` absent, the emitted transcript interpolates the method
into a quoted string literal (line index 2 compares against the five-character
string "undefined"), so the script the transcript describes fulfills a request
whose method string is "undefined", while the executed interceptor lets that
same request continue: the transcript does not faithfully describe the
registered behaviour for every value of the method field. -/
theorem transcript_unfaithful_when_method_absent
    (p : MockApiParams) (h : p.method = none) :
    (mockApiCode p)[2]? =
      some "  if (route.request().method() === \x27undefined\x27) \x7b" ∧
    transcriptAction p ⟨"undefined"⟩ =
      RouteAction.fulfill p.status p.contentType p.body p.headers ∧
    interceptorAction p ⟨"undefined"⟩ = RouteAction.cont ∧
    transcriptAction p ⟨"undefined"⟩ ≠ interceptorAction p ⟨"undefined"⟩ := by
  refine ⟨?_, ?_, ?_, ?_⟩ <;>
    simp [mockApiCode, jsInterp, h, transcriptAction, interceptorAction,
      strictEqMethod]

/-- Witness for C10 at the "/api/x" no-method parameters. -/
theorem transcript_unfaithful_when_method_absent_witness :
    (mockApiCode exParamsNoMethod)[2]? =
      some "  if (route.request().method() === \x27undefined\x27) \x7b" ∧
    transcriptAction exParamsNoMethod ⟨"undefined"⟩ =
      RouteAction.fulfill exParamsNoMethod.status exParamsNoMethod.contentType
        exParamsNoMethod.body exParamsNoMethod.headers ∧
    interceptorAction exParamsNoMethod ⟨"undefined"⟩ = RouteAction.cont ∧
    transcriptAction exParamsNoMethod ⟨"undefined"⟩ ≠
      interceptorAction exParamsNoMethod ⟨"undefined"⟩ :=
  transcript_unfaithful_when_method_absent exParamsNoMethod rfl
